import Mathlib

/-!
A shallow embedding of the Windows backend of the socket2 crate
(`src/sys/windows.rs` plus the byte-order helpers of `src/lib.rs`), and
proofs about its conversion helpers and syscall-wrapping methods.

Machine integers are modelled as `Nat`/`Int` with explicit bounds and
wrap-arounds where the source can overflow.  Calls into the operating
system (`ws2_32::recv`, `ws2_32::getsockopt`, ...) are modelled by oracle
parameters describing the outcome of the call; the wrapper methods are
pure functions of those oracles, and where a claim is about which
arguments reach the OS the wrapper also returns the argument trace.
-/

namespace Socket2

/-- The error values this backend constructs: `invalidInput` stands for
`io::Error::new(io::ErrorKind::InvalidInput, ..)`, and `osError c` for
`io::Error::from_raw_os_error(c)` as produced by `last_error()`. -/
inductive IoError where
  | invalidInput
  | osError (code : Int)
  deriving DecidableEq

/-- Outcome of a fallible operation in the embedding: `ok` mirrors
`Ok`, `err` mirrors `Err` of `io::Result`, and `panicked` marks a failed
`assert!`/`assert_eq!` (a Rust panic, not an `io::Error`). -/
inductive Res (α : Type) where
  | ok (a : α)
  | err (e : IoError)
  | panicked
  deriving DecidableEq

end Socket2

namespace Socket2

/-- `std::time::Duration`: a (seconds, nanoseconds) pair.  `secs` is a
`u64` and `nanos` a sub-second `u32` in Rust; bounds are carried as
hypotheses where a proof needs them. -/
structure Duration where
  secs : Nat
  nanos : Nat
  deriving DecidableEq

/-- `u64::MAX`, the bound used by `checked_mul`/`checked_add` on `u64`. -/
def U64MAX : Nat := 2 ^ 64 - 1

/-- `DWORD::max_value()` (`u32::MAX`). -/
def U32MAX : Nat := 2 ^ 32 - 1

/-- The winapi `INFINITE` constant (`0xFFFFFFFF`), the "never time out"
encoding for millisecond timeouts. -/
def INFINITE : Nat := 4294967295

/-- `u64::checked_mul`: `some (a * b)` when the product fits in a `u64`,
`none` on overflow. -/
def checked_mul_u64 (a b : Nat) : Option Nat :=
  if a * b ≤ U64MAX then some (a * b) else none

/-- `u64::checked_add`: `some (a + b)` when the sum fits in a `u64`,
`none` on overflow. -/
def checked_add_u64 (a b : Nat) : Option Nat :=
  if a + b ≤ U64MAX then some (a + b) else none

/-- `dur2ms` of `src/sys/windows.rs`: encode an optional timeout duration
as a `DWORD` millisecond count.  `None` encodes as `0`; for `Some(dur)`
the millisecond count is `secs * 1000` plus whole milliseconds of the
nanosecond part, rounded up, computed with checked `u64` arithmetic;
overflow of the checked chain or a value above `DWORD::max_value()`
saturates to `INFINITE`; a resulting count of `0` is rejected with an
invalid-input error. -/
def dur2ms (dur : Option Duration) : Res Nat :=
  match dur with
  | some d =>
    let ms :=
      ((((checked_mul_u64 d.secs 1000).bind (fun ms =>
          checked_add_u64 ms (d.nanos / 1000000))).bind (fun ms =>
          checked_add_u64 ms (if d.nanos % 1000000 > 0 then 1 else 0))).map (fun ms =>
          if ms > U32MAX then INFINITE else ms)).getD INFINITE
    if ms = 0 then .err .invalidInput else .ok ms
  | none => .ok 0

/-- `ms2dur` of `src/sys/windows.rs`: decode a `DWORD` millisecond count
back to an optional duration; `0` decodes to `None`. -/
def ms2dur (raw : Nat) : Option Duration :=
  if raw = 0 then
    none
  else
    let secs := raw / 1000
    let nsec := raw % 1000 * 1000000
    some ⟨secs, nsec⟩

/-- The exact (unbounded) millisecond value of a duration as the claims
describe it: seconds times 1000 plus sub-second nanoseconds rounded up to
whole milliseconds. -/
def msTotal (d : Duration) : Nat :=
  d.secs * 1000 + d.nanos / 1000000 + (if d.nanos % 1000000 > 0 then 1 else 0)

/-- winapi constant `SOL_SOCKET` (`0xffff`). -/
def SOL_SOCKET : Int := 65535

/-- winapi constant `SO_RCVTIMEO` (`0x1006`). -/
def SO_RCVTIMEO : Int := 4102

/-- winapi constant `SO_SNDTIMEO` (`0x1005`). -/
def SO_SNDTIMEO : Int := 4101

/-- Outcome of a `ws2_32::getsockopt` call, as seen by the wrapper:
`success slot len` is a zero return that wrote `slot` into the payload
and `len` into the in/out length argument; `failure code` is a non-zero
return with `WSAGetLastError() = code`. -/
inductive OsSockoptResult (α : Type) where
  | success (slot : α) (len : Nat)
  | failure (lastError : Int)

/-- `Socket::getsockopt` of `src/sys/windows.rs`: call the OS getter
(oracle `os`, a function of the `opt`/`val` arguments); on success
`assert_eq!` that the length the OS wrote back equals `size`
(`mem::size_of::<T>()`) and return the slot, on failure return
`last_error()`. -/
def Socket.getsockopt {α : Type} (os : Int → Int → OsSockoptResult α)
    (opt val : Int) (size : Nat) : Res α :=
  match os opt val with
  | .success slot len => if len = size then .ok slot else .panicked
  | .failure code => .err (.osError code)

/-- Byte size of a `DWORD` / `c_int` payload. -/
def SIZEOF_DWORD : Nat := 4

/-- `Socket::read_timeout`: `Ok(ms2dur(getsockopt(SOL_SOCKET, SO_RCVTIMEO)?))`. -/
def Socket.read_timeout (os : Int → Int → OsSockoptResult Nat) :
    Res (Option Duration) :=
  match Socket.getsockopt os SOL_SOCKET SO_RCVTIMEO SIZEOF_DWORD with
  | .ok raw => .ok (ms2dur raw)
  | .err e => .err e
  | .panicked => .panicked

/-- `Socket::write_timeout`: `Ok(ms2dur(getsockopt(SOL_SOCKET, SO_SNDTIMEO)?))`. -/
def Socket.write_timeout (os : Int → Int → OsSockoptResult Nat) :
    Res (Option Duration) :=
  match Socket.getsockopt os SOL_SOCKET SO_SNDTIMEO SIZEOF_DWORD with
  | .ok raw => .ok (ms2dur raw)
  | .err e => .err e
  | .panicked => .panicked

/-- `Socket::set_read_timeout`: `setsockopt(SOL_SOCKET, SO_RCVTIMEO, dur2ms(dur)?)`.
The oracle `os` is the OS `setsockopt` outcome as a function of the
`(opt, val, payload)` arguments; the second component of the result is
the list of `setsockopt` calls actually issued, so that "fails before
any system call" is the trace being empty. -/
def Socket.set_read_timeout (os : Int → Int → Nat → Res Unit)
    (dur : Option Duration) : Res Unit × List (Int × Int × Nat) :=
  match dur2ms dur with
  | .ok ms => (os SOL_SOCKET SO_RCVTIMEO ms, [(SOL_SOCKET, SO_RCVTIMEO, ms)])
  | .err e => (.err e, [])
  | .panicked => (.panicked, [])

/-- `Socket::set_write_timeout`: `setsockopt(SOL_SOCKET, SO_SNDTIMEO, dur2ms(dur)?)`,
with the same call-trace convention as `Socket.set_read_timeout`. -/
def Socket.set_write_timeout (os : Int → Int → Nat → Res Unit)
    (dur : Option Duration) : Res Unit × List (Int × Int × Nat) :=
  match dur2ms dur with
  | .ok ms => (os SOL_SOCKET SO_SNDTIMEO ms, [(SOL_SOCKET, SO_SNDTIMEO, ms)])
  | .err e => (.err e, [])
  | .panicked => (.panicked, [])

/-- `std::net::Ipv4Addr`, as four octets (each a `u8`, so `< 256`). -/
structure Ipv4Addr where
  oct0 : Nat
  oct1 : Nat
  oct2 : Nat
  oct3 : Nat
  deriving DecidableEq

/-- `std::net::Ipv6Addr`, as eight 16-bit segments (each a `u16`, so
`< 2 ^ 16`). -/
structure Ipv6Addr where
  seg0 : Nat
  seg1 : Nat
  seg2 : Nat
  seg3 : Nat
  seg4 : Nat
  seg5 : Nat
  seg6 : Nat
  seg7 : Nat
  deriving DecidableEq

/-- `std::net::SocketAddrV4`: an IPv4 address plus a 16-bit port. -/
structure SocketAddrV4 where
  ip : Ipv4Addr
  port : Nat
  deriving DecidableEq

/-- `std::net::SocketAddrV6`: an IPv6 address, a 16-bit port, and the
32-bit `flowinfo` and `scope_id` fields. -/
structure SocketAddrV6 where
  ip : Ipv6Addr
  port : Nat
  flowinfo : Nat
  scope_id : Nat
  deriving DecidableEq

/-- `std::net::SocketAddr`. -/
inductive SocketAddr where
  | v4 (a : SocketAddrV4)
  | v6 (a : SocketAddrV6)
  deriving DecidableEq

/-- Well-formedness of an address in the embedding: every field fits its
Rust machine-integer type (`u8` octets, `u16` segments and port, `u32`
flowinfo and scope id). -/
def SocketAddr.WF : SocketAddr → Prop
  | .v4 a => a.ip.oct0 < 2 ^ 8 ∧ a.ip.oct1 < 2 ^ 8 ∧ a.ip.oct2 < 2 ^ 8 ∧
      a.ip.oct3 < 2 ^ 8 ∧ a.port < 2 ^ 16
  | .v6 a => a.ip.seg0 < 2 ^ 16 ∧ a.ip.seg1 < 2 ^ 16 ∧ a.ip.seg2 < 2 ^ 16 ∧
      a.ip.seg3 < 2 ^ 16 ∧ a.ip.seg4 < 2 ^ 16 ∧ a.ip.seg5 < 2 ^ 16 ∧
      a.ip.seg6 < 2 ^ 16 ∧ a.ip.seg7 < 2 ^ 16 ∧ a.port < 2 ^ 16 ∧
      a.flowinfo < 2 ^ 32 ∧ a.scope_id < 2 ^ 32

instance : DecidablePred SocketAddr.WF := by
  intro a
  cases a <;> simp only [SocketAddr.WF] <;> infer_instance

/-- `hton` of `src/lib.rs` on a `u16` (`i.to_be()`): on the little-endian
hosts Windows runs on, `to_be` swaps the two bytes. -/
def hton16 (v : Nat) : Nat :=
  v % 2 ^ 8 * 2 ^ 8 + v / 2 ^ 8 % 2 ^ 8

/-- `ntoh` of `src/lib.rs` on a `u16` (`u16::from_be`): the same byte
swap as `hton16` on a little-endian host. -/
def ntoh16 (v : Nat) : Nat :=
  v % 2 ^ 8 * 2 ^ 8 + v / 2 ^ 8 % 2 ^ 8

/-- `hton` of `src/lib.rs` on a `u32` (`i.to_be()`): byte reversal on a
little-endian host. -/
def hton32 (v : Nat) : Nat :=
  v % 2 ^ 8 * 2 ^ 24 + v / 2 ^ 8 % 2 ^ 8 * 2 ^ 16 +
    v / 2 ^ 16 % 2 ^ 8 * 2 ^ 8 + v / 2 ^ 24 % 2 ^ 8

/-- `ntoh` of `src/lib.rs` on a `u32` (`u32::from_be`): the same byte
reversal as `hton32` on a little-endian host. -/
def ntoh32 (v : Nat) : Nat :=
  v % 2 ^ 8 * 2 ^ 24 + v / 2 ^ 8 % 2 ^ 8 * 2 ^ 16 +
    v / 2 ^ 16 % 2 ^ 8 * 2 ^ 8 + v / 2 ^ 24 % 2 ^ 8

/-- The `u32` value `a << 24 | b << 16 | c << 8 | d` built from the four
octets of an IPv4 address (the `|` of disjoint byte ranges is addition),
as in `std::net::Ipv4Addr::new` and `to_s_addr` of `src/sys/windows.rs`. -/
def ipv4_to_u32 (ip : Ipv4Addr) : Nat :=
  ip.oct0 * 2 ^ 24 + ip.oct1 * 2 ^ 16 + ip.oct2 * 2 ^ 8 + ip.oct3

/-- `Ipv6Addr::octets()`: the sixteen bytes of the address, each segment
stored big-endian (`(seg >> 8) as u8` then `seg as u8`). -/
def ipv6_octets (ip : Ipv6Addr) : List Nat :=
  [ip.seg0 / 2 ^ 8 % 2 ^ 8, ip.seg0 % 2 ^ 8,
   ip.seg1 / 2 ^ 8 % 2 ^ 8, ip.seg1 % 2 ^ 8,
   ip.seg2 / 2 ^ 8 % 2 ^ 8, ip.seg2 % 2 ^ 8,
   ip.seg3 / 2 ^ 8 % 2 ^ 8, ip.seg3 % 2 ^ 8,
   ip.seg4 / 2 ^ 8 % 2 ^ 8, ip.seg4 % 2 ^ 8,
   ip.seg5 / 2 ^ 8 % 2 ^ 8, ip.seg5 % 2 ^ 8,
   ip.seg6 / 2 ^ 8 % 2 ^ 8, ip.seg6 % 2 ^ 8,
   ip.seg7 / 2 ^ 8 % 2 ^ 8, ip.seg7 % 2 ^ 8]

/-- Windows `AF_INET`. -/
def AF_INET : Nat := 2

/-- Windows `AF_INET6` (23 on Windows). -/
def AF_INET6 : Nat := 23

/-- `mem::size_of::<SOCKADDR_IN>()` (Windows `sockaddr_in`): 16 bytes. -/
def SIZEOF_SOCKADDR_IN : Nat := 16

/-- `mem::size_of::<sockaddr_in6>()` (Windows `sockaddr_in6`): 28 bytes. -/
def SIZEOF_SOCKADDR_IN6 : Nat := 28

/-- Windows `SOCKADDR_STORAGE`, modelled as the union of the two views
`raw2addr` reads from it: the `sockaddr_in` view (`sin_port`, `sin_addr`)
when `ss_family = AF_INET` and the `sockaddr_in6` view (`sin6_port`,
`sin6_flowinfo`, `sin6_addr`, `sin6_scope_id`) when
`ss_family = AF_INET6`.  `sin_port`/`sin6_port` hold the 16-bit port in
network byte order, `sin_addr` the 32-bit IPv4 address in network byte
order, `sin6_addr` the sixteen address bytes, and
`sin6_flowinfo`/`sin6_scope_id` are stored verbatim (no byte-order
conversion, matching `raw2addr` reading them directly). -/
structure SOCKADDR_STORAGE where
  ss_family : Nat
  sin_port : Nat
  sin_addr : Nat
  sin6_port : Nat
  sin6_flowinfo : Nat
  sin6_addr : List Nat
  sin6_scope_id : Nat
  deriving DecidableEq

/-- `c_int` cast to `usize` (`len as usize`): a negative value wraps
modulo `2 ^ 64`. -/
def usize_of_c_int (i : Int) : Nat :=
  (i % 2 ^ 64).toNat

/-- `addr2raw` of `src/sys/windows.rs`: reinterpret a socket address as
a pointer to the platform raw sockaddr bytes plus their length.  In the
embedding the pointed-to bytes are the `SOCKADDR_STORAGE` views: a
`SocketAddrV4` is a `sockaddr_in` (family `AF_INET`, port and address in
network byte order) of length `mem::size_of::<SOCKADDR_IN>()`, and a
`SocketAddrV6` is a `sockaddr_in6` (family `AF_INET6`, port in network
byte order, the sixteen address octets, flowinfo and scope id stored
verbatim) of length `mem::size_of::<sockaddr_in6>()`; the fields of the
other view are not part of the pointed-to bytes and are zero here. -/
def addr2raw : SocketAddr → SOCKADDR_STORAGE × Int
  | .v4 a =>
    (⟨AF_INET, hton16 a.port, hton32 (ipv4_to_u32 a.ip), 0, 0,
      List.replicate 16 0, 0⟩, (SIZEOF_SOCKADDR_IN : Nat))
  | .v6 a =>
    (⟨AF_INET6, 0, 0, hton16 a.port, a.flowinfo, ipv6_octets a.ip,
      a.scope_id⟩, (SIZEOF_SOCKADDR_IN6 : Nat))

/-- `raw2addr` of `src/sys/windows.rs`: decode a raw `SOCKADDR_STORAGE`
of the given length.  Family `AF_INET`: assert the length covers a
`SOCKADDR_IN`, byte-swap `sin_addr` with `ntoh` and split it into octets
by shifts, byte-swap `sin_port`.  Family `AF_INET6`: assert the length
covers a `sockaddr_in6`, reassemble each 16-bit segment from two address
bytes (`arr[2i] << 8 | arr[2i+1]`, addition of disjoint byte ranges),
byte-swap the port, and take `sin6_flowinfo`/`sin6_scope_id` verbatim.
Any other family: an invalid-input error. -/
def raw2addr (storage : SOCKADDR_STORAGE) (len : Int) : Res SocketAddr :=
  if storage.ss_family = AF_INET then
    if SIZEOF_SOCKADDR_IN ≤ usize_of_c_int len then
      let bits := ntoh32 storage.sin_addr
      .ok (.v4 ⟨⟨bits / 2 ^ 24 % 2 ^ 8, bits / 2 ^ 16 % 2 ^ 8,
                 bits / 2 ^ 8 % 2 ^ 8, bits % 2 ^ 8⟩,
                ntoh16 storage.sin_port⟩)
    else
      .panicked
  else if storage.ss_family = AF_INET6 then
    if SIZEOF_SOCKADDR_IN6 ≤ usize_of_c_int len then
      let arr := storage.sin6_addr
      .ok (.v6 ⟨⟨arr.getD 0 0 * 2 ^ 8 + arr.getD 1 0,
                 arr.getD 2 0 * 2 ^ 8 + arr.getD 3 0,
                 arr.getD 4 0 * 2 ^ 8 + arr.getD 5 0,
                 arr.getD 6 0 * 2 ^ 8 + arr.getD 7 0,
                 arr.getD 8 0 * 2 ^ 8 + arr.getD 9 0,
                 arr.getD 10 0 * 2 ^ 8 + arr.getD 11 0,
                 arr.getD 12 0 * 2 ^ 8 + arr.getD 13 0,
                 arr.getD 14 0 * 2 ^ 8 + arr.getD 15 0⟩,
                ntoh16 storage.sin6_port,
                storage.sin6_flowinfo,
                storage.sin6_scope_id⟩)
    else
      .panicked
  else
    .err .invalidInput

/-- `Socket::local_addr`: ask the OS (`getsockname`) for the bound
address storage and decode it with `raw2addr`; oracle `os` is the
outcome of `getsockname`, with `ok (storage, len)` the storage and
length the OS wrote. -/
def Socket.local_addr (os : Res (SOCKADDR_STORAGE × Int)) : Res SocketAddr :=
  match os with
  | .ok (storage, len) => raw2addr storage len
  | .err e => .err e
  | .panicked => .panicked

/-- `Socket::peer_addr`: ask the OS (`getpeername`) for the connected
peer's address storage and decode it with `raw2addr`. -/
def Socket.peer_addr (os : Res (SOCKADDR_STORAGE × Int)) : Res SocketAddr :=
  match os with
  | .ok (storage, len) => raw2addr storage len
  | .err e => .err e
  | .panicked => .panicked

/-- `c_int::max_value()`. -/
def C_INT_MAX : Nat := 2147483647

/-- `clamp` of `src/sys/windows.rs`: `cmp::min(input, c_int::max_value()
as usize) as c_int`, the buffer length actually handed to the OS
send/recv calls. -/
def clamp (input : Nat) : Int :=
  (min input C_INT_MAX : Nat)

/-- winapi constant `MSG_PEEK`. -/
def MSG_PEEK : Int := 2

/-- Windows error code `WSAESHUTDOWN`. -/
def WSAESHUTDOWN : Int := 10058

/-- Outcome of a `ws2_32::recv`/`send`/`recvfrom`/`sendto` call:
`success n` is a non-negative byte-count return `n`, `failure code` a
`SOCKET_ERROR` return with `WSAGetLastError() = code`. -/
inductive OsCallResult where
  | success (n : Nat)
  | failure (lastError : Int)
  deriving DecidableEq

/-- `Socket::recv`: call `ws2_32::recv` (oracle `os`, a function of the
length and flags arguments) with length `clamp(buf.len())` and flags
`0`; a `SOCKET_ERROR` with last error `WSAESHUTDOWN` becomes `Ok(0)`,
any other `SOCKET_ERROR` becomes the OS error, and a byte count is
returned as is.  The second component records the length argument
passed to the OS. -/
def Socket.recv (os : Int → Int → OsCallResult) (buflen : Nat) :
    Res Nat × Int :=
  let len := clamp buflen
  (match os len 0 with
   | .failure code =>
     if code = WSAESHUTDOWN then .ok 0 else .err (.osError code)
   | .success n => .ok n,
   len)

/-- `Socket::peek`: identical to `Socket::recv` but with the `MSG_PEEK`
flag. -/
def Socket.peek (os : Int → Int → OsCallResult) (buflen : Nat) :
    Res Nat × Int :=
  let len := clamp buflen
  (match os len MSG_PEEK with
   | .failure code =>
     if code = WSAESHUTDOWN then .ok 0 else .err (.osError code)
   | .success n => .ok n,
   len)

/-- `Socket::recvfrom`: call `ws2_32::recvfrom` with length
`clamp(buf.len())` and the given flags; the oracle also yields the
address storage and length the call left behind (the code zeroes the
storage first, so an OS that writes nothing corresponds to an oracle
returning the zeroed storage).  A `SOCKET_ERROR` with last error
`WSAESHUTDOWN` normalizes the byte count to `0`; any other
`SOCKET_ERROR` returns the OS error; finally the storage is decoded
with `raw2addr`, whose error (`?`) propagates. -/
def Socket.recvfrom
    (os : Int → Int → OsCallResult × SOCKADDR_STORAGE × Int)
    (buflen : Nat) (flags : Int) : Res (Nat × SocketAddr) :=
  let len := clamp buflen
  let (r, storage, addrlen) := os len flags
  match r with
  | .failure code =>
    if code = WSAESHUTDOWN then
      match raw2addr storage addrlen with
      | .ok a => .ok (0, a)
      | .err e => .err e
      | .panicked => .panicked
    else
      .err (.osError code)
  | .success n =>
    match raw2addr storage addrlen with
    | .ok a => .ok (n, a)
    | .err e => .err e
    | .panicked => .panicked

/-- `Socket::recv_from`: `recvfrom(buf, 0)`. -/
def Socket.recv_from
    (os : Int → Int → OsCallResult × SOCKADDR_STORAGE × Int)
    (buflen : Nat) : Res (Nat × SocketAddr) :=
  Socket.recvfrom os buflen 0

/-- `Socket::peek_from`: `recvfrom(buf, MSG_PEEK)`. -/
def Socket.peek_from
    (os : Int → Int → OsCallResult × SOCKADDR_STORAGE × Int)
    (buflen : Nat) : Res (Nat × SocketAddr) :=
  Socket.recvfrom os buflen MSG_PEEK

/-- `Socket::send`: call `ws2_32::send` (oracle `os`, a function of the
length argument) with length `clamp(buf.len())`; a `SOCKET_ERROR`
becomes the OS error, a byte count is returned as is.  The second
component records the length argument passed to the OS. -/
def Socket.send (os : Int → OsCallResult) (buflen : Nat) :
    Res Nat × Int :=
  let len := clamp buflen
  (match os len with
   | .failure code => .err (.osError code)
   | .success n => .ok n,
   len)

/-- winapi constant `IPPROTO_IP`. -/
def IPPROTO_IP : Int := 0

/-- winapi constant `IPPROTO_IPV6` (protocol 41). -/
def IPPROTO_IPV6 : Int := 41

/-- Windows `IP_ADD_MEMBERSHIP` (option 12 at level `IPPROTO_IP`). -/
def IP_ADD_MEMBERSHIP : Int := 12

/-- Windows `IP_DROP_MEMBERSHIP` (option 13 at level `IPPROTO_IP`). -/
def IP_DROP_MEMBERSHIP : Int := 13

/-- Windows `IPV6_ADD_MEMBERSHIP` (option 12 at level `IPPROTO_IPV6`). -/
def IPV6_ADD_MEMBERSHIP : Int := 12

/-- Windows `IPV6_DROP_MEMBERSHIP` (option 13 at level `IPPROTO_IPV6`). -/
def IPV6_DROP_MEMBERSHIP : Int := 13

/-- `to_s_addr` of `src/sys/windows.rs`: pack the four octets big-endian
into a `u32` and convert with `hton`. -/
def to_s_addr (addr : Ipv4Addr) : Nat :=
  hton32 (ipv4_to_u32 addr)

/-- `to_in6_addr` of `src/sys/windows.rs`: an `in6_addr` whose `s6_addr`
bytes are `addr.octets()`. -/
def to_in6_addr (addr : Ipv6Addr) : List Nat :=
  ipv6_octets addr

/-- winapi `ip_mreq`: an IPv4 membership request (multicast address and
interface address, both as network-order `u32`). -/
structure ip_mreq where
  imr_multiaddr : Nat
  imr_interface : Nat
  deriving DecidableEq

/-- winapi `ipv6_mreq`: an IPv6 membership request (multicast address
bytes and interface index). -/
structure ipv6_mreq where
  ipv6mr_multiaddr : List Nat
  ipv6mr_interface : Nat
  deriving DecidableEq

/-- `Socket::join_multicast_v4`: build the `ip_mreq` from the multicast
and interface addresses via `to_s_addr` and issue
`setsockopt(IPPROTO_IP, IP_ADD_MEMBERSHIP, mreq)`; the result records
the `(level, option, payload)` of that call. -/
def Socket.join_multicast_v4 (multiaddr interfaceAddr : Ipv4Addr) :
    Int × Int × ip_mreq :=
  let multiaddr' := to_s_addr multiaddr
  let interface' := to_s_addr interfaceAddr
  let mreq : ip_mreq := ⟨multiaddr', interface'⟩
  (IPPROTO_IP, IP_ADD_MEMBERSHIP, mreq)

/-- `Socket::leave_multicast_v4`: as `join_multicast_v4` but issuing
`setsockopt(IPPROTO_IP, IP_DROP_MEMBERSHIP, mreq)`. -/
def Socket.leave_multicast_v4 (multiaddr interfaceAddr : Ipv4Addr) :
    Int × Int × ip_mreq :=
  let multiaddr' := to_s_addr multiaddr
  let interface' := to_s_addr interfaceAddr
  let mreq : ip_mreq := ⟨multiaddr', interface'⟩
  (IPPROTO_IP, IP_DROP_MEMBERSHIP, mreq)

/-- `Socket::join_multicast_v6`: build the `ipv6_mreq` from the
multicast address (via `to_in6_addr`) and the interface index and issue
`setsockopt(IPPROTO_IP, IPV6_ADD_MEMBERSHIP, mreq)` — the level the
source passes is `IPPROTO_IP`, not `IPPROTO_IPV6`; the result records
the `(level, option, payload)` of that call. -/
def Socket.join_multicast_v6 (multiaddr : Ipv6Addr) (interface : Nat) :
    Int × Int × ipv6_mreq :=
  let multiaddr' := to_in6_addr multiaddr
  let mreq : ipv6_mreq := ⟨multiaddr', interface⟩
  (IPPROTO_IP, IPV6_ADD_MEMBERSHIP, mreq)

/-- `Socket::leave_multicast_v6`: as `join_multicast_v6` but issuing
`setsockopt(IPPROTO_IP, IPV6_DROP_MEMBERSHIP, mreq)` — again at level
`IPPROTO_IP` in the source. -/
def Socket.leave_multicast_v6 (multiaddr : Ipv6Addr) (interface : Nat) :
    Int × Int × ipv6_mreq :=
  let multiaddr' := to_in6_addr multiaddr
  let mreq : ipv6_mreq := ⟨multiaddr', interface⟩
  (IPPROTO_IP, IPV6_DROP_MEMBERSHIP, mreq)

/-- winapi `linger`: `l_onoff` and `l_linger` are `u16`s. -/
structure linger where
  l_onoff : Nat
  l_linger : Nat
  deriving DecidableEq

/-- `linger2dur` of `src/sys/windows.rs`: `l_onoff = 0` decodes to
`None`, otherwise `Some(Duration::from_secs(l_linger))`. -/
def linger2dur (linger_opt : linger) : Option Duration :=
  if linger_opt.l_onoff = 0 then
    none
  else
    some ⟨linger_opt.l_linger, 0⟩

/-- `dur2linger` of `src/sys/windows.rs`: `None` encodes to the off
state; `Some(d)` encodes to `l_onoff = 1` with `l_linger = d.as_secs()
as u16` (seconds truncated to 16 bits, sub-second part dropped). -/
def dur2linger (dur : Option Duration) : linger :=
  match dur with
  | some d => ⟨1, d.secs % 2 ^ 16⟩
  | none => ⟨0, 0⟩

/-- C2: a duration of exactly zero is rejected by `dur2ms` with an
invalid-input error, and `set_read_timeout`/`set_write_timeout` on it
return that error with an empty `setsockopt` call trace — they fail
before any system call is made. -/
theorem dur2ms_zero_rejected (d : Duration) (hs : d.secs = 0)
    (hn : d.nanos = 0) :
    dur2ms (some d) = .err .invalidInput ∧
    (∀ os : Int → Int → Nat → Res Unit,
      Socket.set_read_timeout os (some d) = (.err .invalidInput, []) ∧
      Socket.set_write_timeout os (some d) = (.err .invalidInput, [])) := by
  obtain ⟨s, n⟩ := d
  simp only at hs hn
  subst hs
  subst hn
  have h : dur2ms (some ⟨0, 0⟩) = .err .invalidInput := by decide
  refine ⟨h, fun os => ⟨?_, ?_⟩⟩ <;>
    simp [Socket.set_read_timeout, Socket.set_write_timeout, h]

/-- Witness for `dur2ms_zero_rejected` at the zero duration. -/
theorem dur2ms_zero_rejected_witness :
    dur2ms (some ⟨0, 0⟩) = .err .invalidInput :=
  (dur2ms_zero_rejected ⟨0, 0⟩ rfl rfl).1

/-- C5: the absence of a timeout round-trips: `dur2ms(None) = Ok(0)`,
`ms2dur(0) = None`, `set_read_timeout`/`set_write_timeout` of `None`
store the payload `0`, and `read_timeout`/`write_timeout` decode a
stored `0` back to `None`. -/
theorem timeout_none_roundtrip :
    dur2ms none = .ok 0 ∧ ms2dur 0 = none ∧
    (∀ os : Int → Int → Nat → Res Unit,
      Socket.set_read_timeout os none =
        (os SOL_SOCKET SO_RCVTIMEO 0, [(SOL_SOCKET, SO_RCVTIMEO, 0)]) ∧
      Socket.set_write_timeout os none =
        (os SOL_SOCKET SO_SNDTIMEO 0, [(SOL_SOCKET, SO_SNDTIMEO, 0)])) ∧
    (∀ os : Int → Int → OsSockoptResult Nat,
      os SOL_SOCKET SO_RCVTIMEO = .success 0 SIZEOF_DWORD →
        Socket.read_timeout os = .ok none) ∧
    (∀ os : Int → Int → OsSockoptResult Nat,
      os SOL_SOCKET SO_SNDTIMEO = .success 0 SIZEOF_DWORD →
        Socket.write_timeout os = .ok none) := by
  refine ⟨rfl, rfl, fun os => ⟨?_, ?_⟩, fun os h => ?_, fun os h => ?_⟩
  · simp [Socket.set_read_timeout, dur2ms]
  · simp [Socket.set_write_timeout, dur2ms]
  · simp [Socket.read_timeout, Socket.getsockopt, h, ms2dur]
  · simp [Socket.write_timeout, Socket.getsockopt, h, ms2dur]

/-- Witness for `timeout_none_roundtrip` at an oracle returning the
stored value `0`. -/
theorem timeout_none_roundtrip_witness :
    Socket.read_timeout (fun _ _ => .success 0 SIZEOF_DWORD) = .ok none :=
  timeout_none_roundtrip.2.2.2.1 (fun _ _ => .success 0 SIZEOF_DWORD) rfl

/-- C6: the generic `getsockopt` helper, on OS success, asserts that
the length the OS wrote back equals the byte size of the option type —
a mismatch panics (a fatal assertion, not a returned error), and under
the equality the read slot is returned. -/
theorem getsockopt_asserts_size {α : Type}
    (os : Int → Int → OsSockoptResult α) (opt val : Int) (size : Nat)
    (slot : α) (len : Nat) (h : os opt val = .success slot len) :
    (len ≠ size → Socket.getsockopt os opt val size = .panicked) ∧
    (len = size → Socket.getsockopt os opt val size = .ok slot) := by
  constructor <;> intro hlen <;> simp [Socket.getsockopt, h, hlen]

/-- Witness for `getsockopt_asserts_size`: a 4-byte option read whose
OS-reported length is 8 panics; one whose length is 4 returns the slot. -/
theorem getsockopt_asserts_size_witness :
    Socket.getsockopt (fun _ _ => OsSockoptResult.success (37 : Nat) 8)
      SOL_SOCKET SO_RCVTIMEO 4 = .panicked ∧
    Socket.getsockopt (fun _ _ => OsSockoptResult.success (37 : Nat) 4)
      SOL_SOCKET SO_RCVTIMEO 4 = .ok 37 :=
  ⟨(getsockopt_asserts_size _ SOL_SOCKET SO_RCVTIMEO 4 37 8 rfl).1 (by decide),
   (getsockopt_asserts_size _ SOL_SOCKET SO_RCVTIMEO 4 37 4 rfl).2 rfl⟩

/-- C7: a raw storage whose family tag is neither `AF_INET` nor
`AF_INET6` makes `raw2addr` return an invalid-input error, so
`local_addr` and `peer_addr` fail on such storage even when the OS
query itself succeeded. -/
theorem raw2addr_unknown_family (storage : SOCKADDR_STORAGE) (len : Int)
    (h4 : storage.ss_family ≠ AF_INET) (h6 : storage.ss_family ≠ AF_INET6) :
    raw2addr storage len = .err .invalidInput ∧
    Socket.local_addr (.ok (storage, len)) = .err .invalidInput ∧
    Socket.peer_addr (.ok (storage, len)) = .err .invalidInput := by
  have h : raw2addr storage len = .err .invalidInput := by
    simp [raw2addr, h4, h6]
  exact ⟨h, by simp [Socket.local_addr, h], by simp [Socket.peer_addr, h]⟩

/-- Witness for `raw2addr_unknown_family` at a zeroed storage (family
tag `0`). -/
theorem raw2addr_unknown_family_witness :
    raw2addr ⟨0, 0, 0, 0, 0, List.replicate 16 0, 0⟩ 128 =
      .err .invalidInput :=
  (raw2addr_unknown_family ⟨0, 0, 0, 0, 0, List.replicate 16 0, 0⟩ 128
    (by decide) (by decide)).1

/-- C8 (code bug): `join_multicast_v6` and `leave_multicast_v6` pass
level `IPPROTO_IP` — not `IPPROTO_IPV6` — to `setsockopt` together with
the IPv6 membership options, unlike what the claim states; the v4
variant correctly uses `IPPROTO_IP`.  Evaluated here at a concrete
multicast address and interface index. -/
theorem join_multicast_v6_level_is_ip :
    (Socket.join_multicast_v6 ⟨0xff02, 0, 0, 0, 0, 0, 0, 1⟩ 0).1 =
      IPPROTO_IP ∧
    (Socket.leave_multicast_v6 ⟨0xff02, 0, 0, 0, 0, 0, 0, 1⟩ 0).1 =
      IPPROTO_IP ∧
    IPPROTO_IP ≠ IPPROTO_IPV6 ∧
    (Socket.join_multicast_v4 ⟨224, 0, 0, 1⟩ ⟨0, 0, 0, 0⟩).1 =
      IPPROTO_IP := by
  exact ⟨rfl, rfl, by decide, rfl⟩

/-- C9: the length handed to the OS send/recv calls is
`clamp(n) = min(n, c_int::max_value())`: non-negative, at most the
buffer length, at most `c_int::max_value()`, and it is exactly what
`recv` and `send` pass. -/
theorem clamp_spec (n : Nat) (osr : Int → Int → OsCallResult)
    (oss : Int → OsCallResult) :
    0 ≤ clamp n ∧ clamp n ≤ (n : Int) ∧ clamp n ≤ (C_INT_MAX : Nat) ∧
    (Socket.recv osr n).2 = clamp n ∧ (Socket.send oss n).2 = clamp n := by
  refine ⟨?_, ?_, ?_, rfl, rfl⟩ <;> simp [clamp, C_INT_MAX]

/-- C10: the linger encoding is lossy exactly as described: `None`
round-trips through the off state, while `Some(d)` round-trips to
`Some(d)` precisely when `d` is a whole number of seconds below
`2 ^ 16`. -/
theorem linger_roundtrip (d : Duration) :
    linger2dur (dur2linger none) = none ∧
    dur2linger none = ⟨0, 0⟩ ∧
    dur2linger (some d) = ⟨1, d.secs % 2 ^ 16⟩ ∧
    (linger2dur (dur2linger (some d)) = some d ↔
      d.secs < 2 ^ 16 ∧ d.nanos = 0) := by
  obtain ⟨s, n⟩ := d
  refine ⟨rfl, rfl, rfl, ?_⟩
  simp [linger2dur, dur2linger, Duration.mk.injEq]
  omega

/-- C3: a duration whose exact millisecond value (seconds times 1000
plus sub-second nanoseconds rounded up to whole milliseconds) exceeds
`DWORD::max_value()` is encoded by `dur2ms` as `Ok(INFINITE)` — the
saturating "never time out" value — rather than an error, whether the
checked `u64` arithmetic overflows or merely lands above the 32-bit
range. -/
theorem dur2ms_saturates (d : Duration) (h : U32MAX < msTotal d) :
    dur2ms (some d) = .ok INFINITE := by
  unfold msTotal at h
  by_cases h1 : d.secs * 1000 ≤ U64MAX
  · by_cases h2 : d.secs * 1000 + d.nanos / 1000000 ≤ U64MAX
    · by_cases h3 : d.secs * 1000 + d.nanos / 1000000 +
          (if d.nanos % 1000000 > 0 then 1 else 0) ≤ U64MAX
      · simp [dur2ms, checked_mul_u64, checked_add_u64, h1, h2, h3, h,
          INFINITE]
      · simp [dur2ms, checked_mul_u64, checked_add_u64, h1, h2, h3,
          INFINITE]
    · simp [dur2ms, checked_mul_u64, checked_add_u64, h1, h2, INFINITE]
  · simp [dur2ms, checked_mul_u64, h1, INFINITE]

/-- Witness for `dur2ms_saturates` at `2 ^ 32` seconds, whose
millisecond value `2 ^ 32 * 1000` is far above `DWORD::max_value()`. -/
theorem dur2ms_saturates_witness :
    U32MAX < msTotal ⟨2 ^ 32, 0⟩ ∧
    dur2ms (some ⟨2 ^ 32, 0⟩) = .ok INFINITE :=
  ⟨by decide, dur2ms_saturates ⟨2 ^ 32, 0⟩ (by decide)⟩

/-- The 16-bit byte swap, applied to a value assembled from its two
bytes, reverses the bytes. -/
theorem hton16_bytes (b0 b1 : Nat) (h0 : b0 < 2 ^ 8) (h1 : b1 < 2 ^ 8) :
    hton16 (b1 * 2 ^ 8 + b0) = b0 * 2 ^ 8 + b1 := by
  unfold hton16
  have e0 : (b1 * 2 ^ 8 + b0) % 2 ^ 8 = b0 := by omega
  have e1 : (b1 * 2 ^ 8 + b0) / 2 ^ 8 % 2 ^ 8 = b1 := by omega
  rw [e0, e1]

/-- The 16-bit byte swap is an involution on `u16` values. -/
theorem ntoh16_hton16 (v : Nat) (h : v < 2 ^ 16) :
    ntoh16 (hton16 v) = v := by
  obtain ⟨b0, b1, e0, e1, rfl⟩ : ∃ b0 b1, b0 < 2 ^ 8 ∧ b1 < 2 ^ 8 ∧
      v = b1 * 2 ^ 8 + b0 :=
    ⟨v % 2 ^ 8, v / 2 ^ 8, by omega, by omega, by omega⟩
  rw [show ntoh16 = hton16 from rfl, hton16_bytes b0 b1 e0 e1,
    hton16_bytes b1 b0 e1 e0]

/-- The 32-bit byte reversal, applied to a value assembled from its
four bytes, reverses the bytes. -/
theorem hton32_bytes (b0 b1 b2 b3 : Nat) (h0 : b0 < 2 ^ 8)
    (h1 : b1 < 2 ^ 8) (h2 : b2 < 2 ^ 8) (h3 : b3 < 2 ^ 8) :
    hton32 (b3 * 2 ^ 24 + b2 * 2 ^ 16 + b1 * 2 ^ 8 + b0) =
      b0 * 2 ^ 24 + b1 * 2 ^ 16 + b2 * 2 ^ 8 + b3 := by
  unfold hton32
  have e0 : (b3 * 2 ^ 24 + b2 * 2 ^ 16 + b1 * 2 ^ 8 + b0) % 2 ^ 8 = b0 := by
    omega
  have e1 : (b3 * 2 ^ 24 + b2 * 2 ^ 16 + b1 * 2 ^ 8 + b0) / 2 ^ 8 % 2 ^ 8 =
      b1 := by omega
  have e2 : (b3 * 2 ^ 24 + b2 * 2 ^ 16 + b1 * 2 ^ 8 + b0) / 2 ^ 16 % 2 ^ 8 =
      b2 := by omega
  have e3 : (b3 * 2 ^ 24 + b2 * 2 ^ 16 + b1 * 2 ^ 8 + b0) / 2 ^ 24 % 2 ^ 8 =
      b3 := by omega
  rw [e0, e1, e2, e3]

/-- The 32-bit byte reversal is an involution on `u32` values. -/
theorem ntoh32_hton32 (v : Nat) (h : v < 2 ^ 32) :
    ntoh32 (hton32 v) = v := by
  obtain ⟨b0, b1, b2, b3, e0, e1, e2, e3, rfl⟩ :
      ∃ b0 b1 b2 b3, b0 < 2 ^ 8 ∧ b1 < 2 ^ 8 ∧ b2 < 2 ^ 8 ∧ b3 < 2 ^ 8 ∧
        v = b3 * 2 ^ 24 + b2 * 2 ^ 16 + b1 * 2 ^ 8 + b0 :=
    ⟨v % 2 ^ 8, v / 2 ^ 8 % 2 ^ 8, v / 2 ^ 16 % 2 ^ 8, v / 2 ^ 24,
     by omega, by omega, by omega, by omega, by omega⟩
  rw [show ntoh32 = hton32 from rfl, hton32_bytes b0 b1 b2 b3 e0 e1 e2 e3,
    hton32_bytes b3 b2 b1 b0 e3 e2 e1 e0]

/-- C1: encoding any well-formed socket address (IPv4, or IPv6
including non-zero flowinfo and scope id) into raw platform storage
with `addr2raw` and decoding it back with `raw2addr` yields the
original address. -/
theorem addr2raw_raw2addr_roundtrip (a : SocketAddr) (h : a.WF) :
    raw2addr (addr2raw a).1 (addr2raw a).2 = .ok a := by
  cases a with
  | v4 a =>
    obtain ⟨⟨o0, o1, o2, o3⟩, p⟩ := a
    simp only [SocketAddr.WF] at h
    obtain ⟨h0, h1, h2, h3, hp⟩ := h
    have hip : ipv4_to_u32 ⟨o0, o1, o2, o3⟩ < 2 ^ 32 := by
      simp only [ipv4_to_u32]
      omega
    simp only [addr2raw, raw2addr, AF_INET, AF_INET6, SIZEOF_SOCKADDR_IN,
      usize_of_c_int, ntoh32_hton32 _ hip, ntoh16_hton16 p hp]
    norm_num [ipv4_to_u32, Res.ok.injEq, SocketAddr.v4.injEq,
      SocketAddrV4.mk.injEq, Ipv4Addr.mk.injEq]
    and_intros <;> omega
  | v6 a =>
    obtain ⟨⟨s0, s1, s2, s3, s4, s5, s6, s7⟩, p, fl, sc⟩ := a
    simp only [SocketAddr.WF] at h
    obtain ⟨h0, h1, h2, h3, h4, h5, h6, h7, hp, hfl, hsc⟩ := h
    simp only [addr2raw, raw2addr, AF_INET, AF_INET6, SIZEOF_SOCKADDR_IN6,
      usize_of_c_int, ipv6_octets, ntoh16_hton16 p hp]
    norm_num [List.getD, Res.ok.injEq, SocketAddr.v6.injEq,
      SocketAddrV6.mk.injEq, Ipv6Addr.mk.injEq]
    and_intros <;> omega

/-- Witness for `addr2raw_raw2addr_roundtrip`: a concrete IPv4 address
and a concrete IPv6 address with non-zero flowinfo and scope id both
round-trip. -/
theorem addr2raw_raw2addr_roundtrip_witness :
    raw2addr (addr2raw (.v4 ⟨⟨127, 0, 0, 1⟩, 8080⟩)).1
        (addr2raw (.v4 ⟨⟨127, 0, 0, 1⟩, 8080⟩)).2 =
      .ok (.v4 ⟨⟨127, 0, 0, 1⟩, 8080⟩) ∧
    raw2addr
        (addr2raw (.v6 ⟨⟨8193, 3512, 3, 4, 5, 6, 7, 8⟩, 443, 9, 11⟩)).1
        (addr2raw (.v6 ⟨⟨8193, 3512, 3, 4, 5, 6, 7, 8⟩, 443, 9, 11⟩)).2 =
      .ok (.v6 ⟨⟨8193, 3512, 3, 4, 5, 6, 7, 8⟩, 443, 9, 11⟩) :=
  ⟨addr2raw_raw2addr_roundtrip (.v4 ⟨⟨127, 0, 0, 1⟩, 8080⟩) (by decide),
   addr2raw_raw2addr_roundtrip
     (.v6 ⟨⟨8193, 3512, 3, 4, 5, 6, 7, 8⟩, 443, 9, 11⟩) (by decide)⟩

/-- C4 counterexample: when `ws2_32::recvfrom` reports a
`SOCKET_ERROR` with last error `WSAESHUTDOWN` and leaves the zeroed
address storage untouched, `recv_from` does not return `Ok` — the
byte count is normalized to `0` but decoding the zeroed storage
(family tag `0`) fails, so the call returns an invalid-input error. -/
theorem recv_from_shutdown_not_ok :
    Socket.recv_from
      (fun _ _ => (.failure WSAESHUTDOWN,
        ⟨0, 0, 0, 0, 0, List.replicate 16 0, 0⟩, 128))
      1 = .err .invalidInput := by
  decide

/-- C4 as amended: on a `SOCKET_ERROR` whose last error is
`WSAESHUTDOWN`, `recv` and `peek` return `Ok(0)` unconditionally;
`recv_from` and `peek_from` normalize the byte count to `0` but still
decode the address storage the call left behind, returning
`Ok((0, addr))` exactly when that storage decodes to an address and
propagating `raw2addr`'s invalid-input error otherwise. -/
theorem recv_shutdown_zero (os : Int → Int → OsCallResult)
    (osf : Int → Int → OsCallResult × SOCKADDR_STORAGE × Int) (n : Nat)
    (storage : SOCKADDR_STORAGE) (addrlen : Int) (a : SocketAddr) :
    (os (clamp n) 0 = .failure WSAESHUTDOWN →
      (Socket.recv os n).1 = .ok 0) ∧
    (os (clamp n) MSG_PEEK = .failure WSAESHUTDOWN →
      (Socket.peek os n).1 = .ok 0) ∧
    (osf (clamp n) 0 = (.failure WSAESHUTDOWN, storage, addrlen) →
      raw2addr storage addrlen = .ok a →
      Socket.recv_from osf n = .ok (0, a)) ∧
    (osf (clamp n) 0 = (.failure WSAESHUTDOWN, storage, addrlen) →
      raw2addr storage addrlen = .err .invalidInput →
      Socket.recv_from osf n = .err .invalidInput) ∧
    (osf (clamp n) MSG_PEEK = (.failure WSAESHUTDOWN, storage, addrlen) →
      raw2addr storage addrlen = .ok a →
      Socket.peek_from osf n = .ok (0, a)) ∧
    (osf (clamp n) MSG_PEEK = (.failure WSAESHUTDOWN, storage, addrlen) →
      raw2addr storage addrlen = .err .invalidInput →
      Socket.peek_from osf n = .err .invalidInput) := by
  refine ⟨fun h1 => ?_, fun h1 => ?_, fun h1 h2 => ?_, fun h1 h2 => ?_,
    fun h1 h2 => ?_, fun h1 h2 => ?_⟩
  · simp [Socket.recv, h1]
  · simp [Socket.peek, h1]
  · simp [Socket.recv_from, Socket.recvfrom, h1, h2]
  · simp [Socket.recv_from, Socket.recvfrom, h1, h2]
  · simp [Socket.peek_from, Socket.recvfrom, h1, h2]
  · simp [Socket.peek_from, Socket.recvfrom, h1, h2]

/-- Witness for `recv_shutdown_zero`: a shutdown-reporting `recv`
oracle yields `Ok(0)`, and a shutdown-reporting `recvfrom` oracle that
filled in a valid IPv4 storage yields `Ok((0, addr))`. -/
theorem recv_shutdown_zero_witness :
    (Socket.recv (fun _ _ => .failure WSAESHUTDOWN) 5).1 = .ok 0 ∧
    Socket.recv_from
      (fun _ _ => (.failure WSAESHUTDOWN,
        (addr2raw (.v4 ⟨⟨127, 0, 0, 1⟩, 80⟩)).1, 16))
      5 = .ok (0, .v4 ⟨⟨127, 0, 0, 1⟩, 80⟩) :=
  ⟨(recv_shutdown_zero (fun _ _ => .failure WSAESHUTDOWN)
      (fun _ _ => (.failure WSAESHUTDOWN,
        (addr2raw (.v4 ⟨⟨127, 0, 0, 1⟩, 80⟩)).1, 16))
      5 (addr2raw (.v4 ⟨⟨127, 0, 0, 1⟩, 80⟩)).1 16
      (.v4 ⟨⟨127, 0, 0, 1⟩, 80⟩)).1 rfl,
   (recv_shutdown_zero (fun _ _ => .failure WSAESHUTDOWN)
      (fun _ _ => (.failure WSAESHUTDOWN,
        (addr2raw (.v4 ⟨⟨127, 0, 0, 1⟩, 80⟩)).1, 16))
      5 (addr2raw (.v4 ⟨⟨127, 0, 0, 1⟩, 80⟩)).1 16
      (.v4 ⟨⟨127, 0, 0, 1⟩, 80⟩)).2.2.1 rfl (by decide)⟩

end Socket2
